import Mathlib

/-!
Verification of the client-side upload/preview workflow implemented in
`src/web/src/pages/mainPage.tsx`.

The component keeps four pieces of state (`file`, `previewUrl`,
`isUploading`, `uploadStatus`) and exposes three handlers
(`handleFileUpload`, `clearFile`, `sendToBackend`) plus a `useEffect`
whose cleanup revokes the current object URL when `previewUrl` changes or
the component unmounts.  We embed the handlers as pure functions over an
explicit component state, with object-URL creation/revocation recorded in
a trace, and the single `fetch` of `sendToBackend` resolved by an
environment value.
-/

/-- A JS string, modelled as its sequence of characters. -/
abbrev JsStr := List Char

/-- `s.startsWith(p)` on JS strings. -/
def jsStartsWith (s p : JsStr) : Bool := p.isPrefixOf s

/-- `fileType.startsWith("video/")`. -/
def isVideoType (t : JsStr) : Bool := jsStartsWith t ("video/".toList)

/-- `fileType.startsWith("image/")`. -/
def isImageType (t : JsStr) : Bool := jsStartsWith t ("image/".toList)

/-- A selected `File`: display name, byte size, declared media type and an
abstract handle standing for its binary content. -/
structure JSFile where
  name : String
  size : Nat
  type : JsStr
  content : Nat
deriving DecidableEq, Repr

/-- The tag of the component's `uploadStatus.type` field:
`null`, `"success"` or `"error"`. -/
inductive StatusType where
  | null
  | success
  | error
deriving DecidableEq, Repr

/-- The component's `uploadStatus` value: a tag plus a message string. -/
structure UploadStatus where
  type : StatusType
  message : String
deriving DecidableEq, Repr

/-- `{ type: null, message: "" }`, the idle status. -/
def idleStatus : UploadStatus := ⟨StatusType.null, ""⟩

/-- The whole component state.  Besides the four `useState` fields we track
the url captured by the currently registered `useEffect` cleanup
(`effectUrl`), a fresh-object-URL counter (`nextUrl`), and traces of all
`URL.createObjectURL` / `URL.revokeObjectURL` calls made so far. -/
structure PageState where
  file : Option JSFile
  previewUrl : Option Nat
  isUploading : Bool
  uploadStatus : UploadStatus
  effectUrl : Option Nat
  nextUrl : Nat
  created : List Nat
  revoked : List Nat
deriving DecidableEq, Repr

/-- The component's initial state on mount. -/
def initState : PageState :=
  { file := none, previewUrl := none, isUploading := false,
    uploadStatus := idleStatus, effectUrl := none, nextUrl := 0,
    created := [], revoked := [] }

/-- `const API_BASE_URL = "/api"`. -/
def API_BASE_URL : String := "/api"

/-- The parsed JSON body of a backend response; every field is optional. -/
structure ResponseBody where
  detail : Option String
  error : Option String
  message : Option String
  frame_index_in_valid_list : Option Int
deriving DecidableEq, Repr

/-- An HTTP response: numeric status, raw status text, and the parsed JSON
body (`none` when `response.json()` rejected, i.e. the body is not JSON). -/
structure HttpResponse where
  status : Nat
  statusText : String
  body : Option ResponseBody
deriving DecidableEq, Repr

/-- `response.ok`: status in the inclusive range 200–299. -/
def responseOk (status : Nat) : Bool := 200 ≤ status && status ≤ 299

/-- A thrown JS value as the catch clause discriminates it:
a `TypeError` (with message), any other `Error` (with message), or a
non-`Error` value. -/
inductive JSError where
  | typeError (msg : String)
  | error (msg : String)
  | other
deriving DecidableEq, Repr

/-- The outcome of the single `fetch`: a settled response, or a rejection
carrying a thrown value. -/
inductive FetchResult where
  | resp (r : HttpResponse)
  | reject (e : JSError)
deriving DecidableEq, Repr

/-- A value appended to the outgoing `FormData`: the file's binary content
or a scalar string. -/
inductive FormValue where
  | fileContent (c : Nat)
  | str (s : String)
deriving DecidableEq, Repr

/-- An outbound POST request: target endpoint and multipart fields in
append order. -/
structure Request where
  endpoint : String
  formData : List (String × FormValue)
deriving DecidableEq, Repr

/-- Observable events of one `sendToBackend` run, in order: mutations of
the in-flight flag and network calls issued. -/
inductive Event where
  | setUploading (b : Bool)
  | netCall (req : Request)
deriving DecidableEq, Repr

/-- The requests issued during a run. -/
def netCalls (tr : List Event) : List Request :=
  tr.filterMap fun e =>
    match e with
    | Event.netCall r => some r
    | _ => none

/-- The `details` array assembled for a failed response: `detail`, `error`
and `message` are pushed when present and truthy (a JS string is truthy iff
it is nonempty), and `frame_index_in_valid_list` is pushed, rendered as
`"Frame index: <value>"`, whenever it is not `undefined`. -/
def buildDetails (b : ResponseBody) : List String :=
  (match b.detail with
   | some s => if s = "" then [] else [s]
   | none => []) ++
  (match b.error with
   | some s => if s = "" then [] else [s]
   | none => []) ++
  (match b.message with
   | some s => if s = "" then [] else [s]
   | none => []) ++
  (match b.frame_index_in_valid_list with
   | some i => ["Frame index: " ++ toString i]
   | none => [])

/-- The error message built for a non-ok response: the
`"Server error (<status>): "` head, then the joined details when the body
parsed and yielded at least one detail, otherwise the raw status text. -/
def serverErrorMessage (status : Nat) (statusText : String)
    (body : Option ResponseBody) : String :=
  "Server error (" ++ toString status ++ "): " ++
    (match body with
     | some b =>
         let details := buildDetails b
         if details.length > 0 then String.intercalate " | " details
         else statusText
     | none => statusText)

/-- The distinguished connectivity-failure message. -/
def networkErrorMessage : String :=
  "Network error: Cannot connect to the server. Check if the API is running at "
    ++ API_BASE_URL

/-- The catch clause's reduction of a thrown value to a user-facing
message. -/
def catchMessage (e : JSError) : String :=
  match e with
  | JSError.typeError msg =>
      if msg = "Failed to fetch" then networkErrorMessage else msg
  | JSError.error msg => msg
  | JSError.other => "Failed to upload file"

/-- The endpoint and `FormData` built for a supported file
(`isVideo` records which branch of the classification fired). -/
def buildRequest (isVideo : Bool) (f : JSFile) : Request :=
  if isVideo then
    { endpoint := API_BASE_URL ++ "/arms/from_video",
      formData := [("video", FormValue.fileContent f.content),
                   ("fps", FormValue.str "1"),
                   ("seconds", FormValue.str "-1")] }
  else
    { endpoint := API_BASE_URL ++ "/arms/from_image",
      formData := [("image", FormValue.fileContent f.content)] }

/-- The `sendToBackend` handler.  `fetch` resolves the single potential
network call.  Returns the updated state and the ordered event trace.
All thrown values (unsupported type, non-ok response, rejection) are
caught and reduced by `catchMessage`; the `finally` clause lowers the
in-flight flag on every path. -/
def sendToBackend (s : PageState) (fetch : FetchResult) :
    PageState × List Event :=
  match s.file with
  | none =>
      ({ s with uploadStatus := ⟨StatusType.error, "Please select a file first"⟩ },
       [])
  | some f =>
      let s1 := { s with isUploading := true, uploadStatus := idleStatus }
      let isVideo := isVideoType f.type
      let isImage := isImageType f.type
      if !isVideo && !isImage then
        ({ s1 with
            uploadStatus :=
              ⟨StatusType.error,
               catchMessage (JSError.error "Please upload a valid video or image file")⟩,
            isUploading := false },
         [Event.setUploading true, Event.setUploading false])
      else
        let req := buildRequest isVideo f
        match fetch with
        | FetchResult.reject e =>
            ({ s1 with
                uploadStatus := ⟨StatusType.error, catchMessage e⟩,
                isUploading := false },
             [Event.setUploading true, Event.netCall req, Event.setUploading false])
        | FetchResult.resp r =>
            if !responseOk r.status then
              ({ s1 with
                  uploadStatus :=
                    ⟨StatusType.error,
                     catchMessage
                       (JSError.error (serverErrorMessage r.status r.statusText r.body))⟩,
                  isUploading := false },
               [Event.setUploading true, Event.netCall req, Event.setUploading false])
            else
              ({ s1 with
                  uploadStatus :=
                    ⟨StatusType.success,
                     (if isVideo then "Video" else "Image") ++ " uploaded successfully!"⟩,
                  isUploading := false },
               [Event.setUploading true, Event.netCall req, Event.setUploading false])

/-- `URL.revokeObjectURL(u)`: record the release call. -/
def revokeObjectURL (s : PageState) (u : Nat) : PageState :=
  { s with revoked := s.revoked ++ [u] }

/-- `URL.createObjectURL(...)`: mint a fresh handle and record it. -/
def createObjectURL (s : PageState) : PageState × Nat :=
  ({ s with nextUrl := s.nextUrl + 1, created := s.created ++ [s.nextUrl] },
   s.nextUrl)

/-- The `handleFileUpload` handler: for a nonempty selection, store the
first candidate, reset the status, revoke the current preview url (if any)
and bind a fresh one. -/
def handleFileUpload (files : List JSFile) (s : PageState) : PageState :=
  match files with
  | [] => s
  | f :: _ =>
      let s2 := { s with file := some f, uploadStatus := idleStatus }
      let s3 :=
        match s2.previewUrl with
        | some u => revokeObjectURL s2 u
        | none => s2
      let p := createObjectURL s3
      { p.1 with previewUrl := some p.2 }

/-- The `clearFile` handler: revoke the current preview url (if any) and
reset `file`, `previewUrl` and `uploadStatus`. -/
def clearFile (s : PageState) : PageState :=
  let s2 :=
    match s.previewUrl with
    | some u => revokeObjectURL s u
    | none => s
  { s2 with file := none, previewUrl := none, uploadStatus := idleStatus }

/-- React re-running the `useEffect` with dependency `[previewUrl]` after a
render: when the dependency changed, the previously registered cleanup
fires, revoking the url it captured (if any), and a new cleanup capturing
the current url is registered. -/
def runPreviewEffect (s : PageState) : PageState :=
  if s.previewUrl = s.effectUrl then s
  else
    let s2 :=
      match s.effectUrl with
      | some u => revokeObjectURL s u
      | none => s
    { s2 with effectUrl := s.previewUrl }

/-- One user selection of a single file, followed by the re-render
effect. -/
def selectStep (s : PageState) (f : JSFile) : PageState :=
  runPreviewEffect (handleFileUpload [f] s)

/-- A sequence of single-file selections. -/
def selectAll (s : PageState) (fs : List JSFile) : PageState :=
  fs.foldl selectStep s

/-- Component teardown: the registered cleanup fires one final time. -/
def unmount (s : PageState) : PageState :=
  match s.effectUrl with
  | some u => revokeObjectURL s u
  | none => s

/-! ### Concrete sample values used in witnesses and counterexamples -/

/-- A concrete image file. -/
def imgA : JSFile := ⟨"a.png", 100, "image/png".toList, 1⟩

/-- A second concrete image file. -/
def imgB : JSFile := ⟨"b.png", 200, "image/png".toList, 2⟩

/-- A concrete video file. -/
def vidA : JSFile := ⟨"v.mp4", 300, "video/mp4".toList, 3⟩

/-- A concrete file of unsupported type. -/
def txtA : JSFile := ⟨"a.txt", 10, "text/plain".toList, 4⟩

/-- The detail list as the (amended) specification describes it: the
string fields `detail`, `error`, `message` that are present and non-empty,
in that order, followed by the rendered frame index whenever present. -/
def specErrorDetails (b : ResponseBody) : List String :=
  (([b.detail, b.error, b.message].filterMap id).filter fun s => !(s == "")) ++
    (b.frame_index_in_valid_list.map fun i => "Frame index: " ++ toString i).toList

/-- Each element of the list repeated twice, in place. -/
def dupList : List Nat → List Nat
  | [] => []
  | u :: l => u :: u :: dupList l

/-- The reachable-state invariant of the selection loop: handles are minted
in order, the current preview (if any) is the newest handle and is the one
captured by the effect cleanup, and every older handle has been released
exactly twice. -/
def PreviewInv (s : PageState) : Prop :=
  s.created = List.range s.nextUrl ∧
  ((s.previewUrl = none ∧ s.effectUrl = none ∧ s.nextUrl = 0 ∧ s.revoked = []) ∨
   (∃ m, s.nextUrl = m + 1 ∧ s.previewUrl = some m ∧ s.effectUrl = some m ∧
      s.revoked = dupList (List.range m)))


/-! ### Helper lemmas -/

/-- A media type starting with `image/` cannot also start with `video/`. -/
theorem image_not_video {t : JsStr} (h : isImageType t = true) :
    isVideoType t = false := by
  match t with
  | [] => exact absurd h (by decide)
  | c :: cs =>
      have h2 : ('i' == c && List.isPrefixOf ("mage/".toList) cs) = true := h
      rw [Bool.and_eq_true] at h2
      have hc : c = 'i' := (eq_of_beq h2.1).symm
      subst hc
      show ('v' == 'i' && List.isPrefixOf ("ideo/".toList) cs) = false
      simp

/-- C3 counterexample: submitting with no file selected yields the message
`"Please select a file first"`, not `"no file selected"` (and no network
call). -/
theorem no_file_message_counterexample :
    (sendToBackend initState (FetchResult.reject JSError.other)).1.uploadStatus.type
        = StatusType.error ∧
    (sendToBackend initState (FetchResult.reject JSError.other)).1.uploadStatus.message
        = "Please select a file first" ∧
    ¬ ((sendToBackend initState (FetchResult.reject JSError.other)).1.uploadStatus.message
        = "no file selected") ∧
    netCalls (sendToBackend initState (FetchResult.reject JSError.other)).2 = [] := by
  decide

/-- C3 (amended): invoking `sendToBackend` with no file selected yields an
error status with message `"Please select a file first"` and issues zero
network calls, whatever the environment would have answered. -/
theorem sendToBackend_no_file (s : PageState) (fetch : FetchResult)
    (h : s.file = none) :
    (sendToBackend s fetch).1.uploadStatus
        = ⟨StatusType.error, "Please select a file first"⟩ ∧
    netCalls (sendToBackend s fetch).2 = [] := by
  simp [sendToBackend, h, netCalls]

/-- Witness for `sendToBackend_no_file` at the initial state. -/
theorem sendToBackend_no_file_witness :
    (sendToBackend initState (FetchResult.reject JSError.other)).1.uploadStatus
        = ⟨StatusType.error, "Please select a file first"⟩ ∧
    netCalls (sendToBackend initState (FetchResult.reject JSError.other)).2 = [] :=
  sendToBackend_no_file initState (FetchResult.reject JSError.other) rfl

/-- C7 counterexample: submitting a `text/plain` file yields the message
`"Please upload a valid video or image file"`, not
`"unsupported file type"` (and no network call). -/
theorem unsupported_message_counterexample :
    (sendToBackend { initState with file := some txtA }
        (FetchResult.resp ⟨200, "OK", none⟩)).1.uploadStatus.type = StatusType.error ∧
    (sendToBackend { initState with file := some txtA }
        (FetchResult.resp ⟨200, "OK", none⟩)).1.uploadStatus.message
        = "Please upload a valid video or image file" ∧
    ¬ ((sendToBackend { initState with file := some txtA }
        (FetchResult.resp ⟨200, "OK", none⟩)).1.uploadStatus.message
        = "unsupported file type") ∧
    netCalls (sendToBackend { initState with file := some txtA }
        (FetchResult.resp ⟨200, "OK", none⟩)).2 = [] := by
  decide

/-- C7 (amended): submitting a file whose media type starts with neither
`image/` nor `video/` yields an error status with message
`"Please upload a valid video or image file"` and issues zero network
calls. -/
theorem sendToBackend_unsupported (s : PageState) (f : JSFile) (fetch : FetchResult)
    (hf : s.file = some f)
    (hv : isVideoType f.type = false)
    (hi : isImageType f.type = false) :
    (sendToBackend s fetch).1.uploadStatus
        = ⟨StatusType.error, "Please upload a valid video or image file"⟩ ∧
    netCalls (sendToBackend s fetch).2 = [] := by
  simp [sendToBackend, hf, hv, hi, netCalls, catchMessage]

/-- Witness for `sendToBackend_unsupported` at a concrete `text/plain`
file. -/
theorem sendToBackend_unsupported_witness :
    (sendToBackend { initState with file := some txtA }
        (FetchResult.resp ⟨200, "OK", none⟩)).1.uploadStatus
        = ⟨StatusType.error, "Please upload a valid video or image file"⟩ ∧
    netCalls (sendToBackend { initState with file := some txtA }
        (FetchResult.resp ⟨200, "OK", none⟩)).2 = [] :=
  sendToBackend_unsupported { initState with file := some txtA } txtA
    (FetchResult.resp ⟨200, "OK", none⟩) rfl (by decide) (by decide)

/-- C9: on every execution path, `sendToBackend` leaves `file`,
`previewUrl` and all preview-lifecycle bookkeeping unchanged; it mutates
only `uploadStatus` and `isUploading`. -/
theorem sendToBackend_frame (s : PageState) (fetch : FetchResult) :
    (sendToBackend s fetch).1.file = s.file ∧
    (sendToBackend s fetch).1.previewUrl = s.previewUrl ∧
    (sendToBackend s fetch).1.effectUrl = s.effectUrl ∧
    (sendToBackend s fetch).1.nextUrl = s.nextUrl ∧
    (sendToBackend s fetch).1.created = s.created ∧
    (sendToBackend s fetch).1.revoked = s.revoked := by
  rcases hf : s.file with _ | f
  · rcases fetch with r | e <;> simp [sendToBackend, hf]
  · rcases fetch with r | e <;>
      cases hv : isVideoType f.type <;> cases hi : isImageType f.type <;>
      first
        | (cases hok : responseOk r.status <;>
            simp [sendToBackend, hf, hv, hi, hok])
        | simp [sendToBackend, hf, hv, hi]

/-- C10: `clearFile` always leaves `file` and `previewUrl` absent and the
status idle; it is idempotent on the whole state, and when no preview is
active it performs no release call. -/
theorem clearFile_spec (s : PageState) :
    (clearFile s).file = none ∧
    (clearFile s).previewUrl = none ∧
    (clearFile s).uploadStatus = idleStatus ∧
    clearFile (clearFile s) = clearFile s ∧
    (s.previewUrl = none → (clearFile s).revoked = s.revoked) := by
  rcases hp : s.previewUrl with _ | u <;>
    simp [clearFile, hp, revokeObjectURL]

/-- Witness for `clearFile_spec` at the initial state. -/
theorem clearFile_spec_witness :
    (clearFile initState).file = none ∧
    (clearFile initState).revoked = initState.revoked :=
  ⟨(clearFile_spec initState).1, (clearFile_spec initState).2.2.2.2 rfl⟩

/-- Helper: with a file selected, `sendToBackend` ends with the flag low
and its trace is raise–(optional single network call)–release. -/
theorem sendToBackend_run (s : PageState) (f : JSFile) (fetch : FetchResult)
    (h : s.file = some f) :
    (sendToBackend s fetch).1.isUploading = false ∧
    ((sendToBackend s fetch).2 = [Event.setUploading true, Event.setUploading false] ∨
     (sendToBackend s fetch).2 = [Event.setUploading true,
        Event.netCall (buildRequest (isVideoType f.type) f),
        Event.setUploading false]) := by
  rcases fetch with r | e
  · cases hv : isVideoType f.type <;> cases hi : isImageType f.type <;>
      cases hok : responseOk r.status <;>
      simp [sendToBackend, h, hv, hi, hok]
  · cases hv : isVideoType f.type <;> cases hi : isImageType f.type <;>
      simp [sendToBackend, h, hv, hi]

/-- C2: for every invocation of `sendToBackend` with a file selected, the
in-flight flag is raised as the first event and released as the last one,
is not touched in between (so any network call happens strictly inside the
raised window), and the final state has the flag low — on the success,
handled-error and thrown-failure paths alike. -/
theorem sendToBackend_inflight_flag (s : PageState) (f : JSFile) (fetch : FetchResult)
    (h : s.file = some f) :
    (sendToBackend s fetch).1.isUploading = false ∧
    ∃ mid, (sendToBackend s fetch).2
        = Event.setUploading true :: (mid ++ [Event.setUploading false]) ∧
      ∀ e ∈ mid, ∀ b, ¬ e = Event.setUploading b := by
  obtain ⟨h1, h2⟩ := sendToBackend_run s f fetch h
  refine ⟨h1, ?_⟩
  rcases h2 with h2 | h2
  · exact ⟨[], h2, by simp⟩
  · exact ⟨[Event.netCall (buildRequest (isVideoType f.type) f)], h2, by simp⟩

/-- Witness for `sendToBackend_inflight_flag` at a concrete video upload. -/
theorem sendToBackend_inflight_flag_witness :
    (sendToBackend { initState with file := some vidA }
        (FetchResult.resp ⟨200, "OK", none⟩)).1.isUploading = false ∧
    ∃ mid, (sendToBackend { initState with file := some vidA }
        (FetchResult.resp ⟨200, "OK", none⟩)).2
        = Event.setUploading true :: (mid ++ [Event.setUploading false]) ∧
      ∀ e ∈ mid, ∀ b, ¬ e = Event.setUploading b :=
  sendToBackend_inflight_flag { initState with file := some vidA } vidA
    (FetchResult.resp ⟨200, "OK", none⟩) rfl

/-- C4: a submitted `video/*` file issues exactly one POST to
`/api/arms/from_video` with fields `video` (the file's content),
`fps = "1"`, `seconds = "-1"`; a submitted `image/*` file issues exactly
one POST to `/api/arms/from_image` with field `image` (the file's
content). -/
theorem sendToBackend_request_shape (s : PageState) (f : JSFile) (fetch : FetchResult)
    (h : s.file = some f) :
    (isVideoType f.type = true →
      netCalls (sendToBackend s fetch).2 =
        [{ endpoint := "/api/arms/from_video",
           formData := [("video", FormValue.fileContent f.content),
                        ("fps", FormValue.str "1"),
                        ("seconds", FormValue.str "-1")] }]) ∧
    (isImageType f.type = true →
      netCalls (sendToBackend s fetch).2 =
        [{ endpoint := "/api/arms/from_image",
           formData := [("image", FormValue.fileContent f.content)] }]) := by
  constructor
  · intro hv
    rcases fetch with r | e
    · cases hok : responseOk r.status <;>
        simp [sendToBackend, h, hv, hok, netCalls, buildRequest, API_BASE_URL]
    · simp [sendToBackend, h, hv, netCalls, buildRequest, API_BASE_URL]
  · intro hi
    have hv := image_not_video hi
    rcases fetch with r | e
    · cases hok : responseOk r.status <;>
        simp [sendToBackend, h, hv, hi, hok, netCalls, buildRequest, API_BASE_URL]
    · simp [sendToBackend, h, hv, hi, netCalls, buildRequest, API_BASE_URL]

/-- Witness for `sendToBackend_request_shape` at concrete video and image
uploads. -/
theorem sendToBackend_request_shape_witness :
    netCalls (sendToBackend { initState with file := some vidA }
        (FetchResult.resp ⟨200, "OK", none⟩)).2 =
      [{ endpoint := "/api/arms/from_video",
         formData := [("video", FormValue.fileContent 3),
                      ("fps", FormValue.str "1"),
                      ("seconds", FormValue.str "-1")] }] ∧
    netCalls (sendToBackend { initState with file := some imgA }
        (FetchResult.resp ⟨200, "OK", none⟩)).2 =
      [{ endpoint := "/api/arms/from_image",
         formData := [("image", FormValue.fileContent 1)] }] :=
  ⟨(sendToBackend_request_shape { initState with file := some vidA } vidA
      (FetchResult.resp ⟨200, "OK", none⟩) rfl).1 (by decide),
   (sendToBackend_request_shape { initState with file := some imgA } imgA
      (FetchResult.resp ⟨200, "OK", none⟩) rfl).2 (by decide)⟩

/-- C6: for a supported selected file, a rejected `fetch` never escapes
`sendToBackend`: a `TypeError` with message `"Failed to fetch"` becomes the
connectivity message naming the `/api` base endpoint (which occurs in that
message), any other thrown `Error` surfaces its own message, and any
non-`Error` value is reduced to `"Failed to upload file"`. -/
theorem sendToBackend_thrown_reduction (s : PageState) (f : JSFile)
    (hf : s.file = some f)
    (hsup : isVideoType f.type = true ∨ isImageType f.type = true) :
    ((sendToBackend s (FetchResult.reject (JSError.typeError "Failed to fetch"))).1.uploadStatus
        = ⟨StatusType.error,
           "Network error: Cannot connect to the server. Check if the API is running at /api"⟩) ∧
    (∀ msg, ¬ msg = "Failed to fetch" →
        (sendToBackend s (FetchResult.reject (JSError.typeError msg))).1.uploadStatus
          = ⟨StatusType.error, msg⟩) ∧
    (∀ msg, (sendToBackend s (FetchResult.reject (JSError.error msg))).1.uploadStatus
        = ⟨StatusType.error, msg⟩) ∧
    ((sendToBackend s (FetchResult.reject JSError.other)).1.uploadStatus
        = ⟨StatusType.error, "Failed to upload file"⟩) ∧
    ((API_BASE_URL : String).toList <:+:
      ("Network error: Cannot connect to the server. Check if the API is running at /api").toList) := by
  have hcases : ∀ e : JSError,
      (sendToBackend s (FetchResult.reject e)).1.uploadStatus
        = ⟨StatusType.error, catchMessage e⟩ := by
    intro e
    rcases hsup with hv | hi
    · simp [sendToBackend, hf, hv]
    · have hv := image_not_video hi
      simp [sendToBackend, hf, hv, hi]
  refine ⟨?_, ?_, ?_, ?_, by set_option maxRecDepth 4096 in decide⟩
  · rw [hcases]; simp [catchMessage, networkErrorMessage, API_BASE_URL]
  · intro msg hmsg; rw [hcases]; simp [catchMessage, hmsg]
  · intro msg; rw [hcases]; rfl
  · rw [hcases]; rfl

/-- Witness for `sendToBackend_thrown_reduction` at a concrete video file
and a concrete transport failure. -/
theorem sendToBackend_thrown_reduction_witness :
    (sendToBackend { initState with file := some vidA }
        (FetchResult.reject (JSError.typeError "Failed to fetch"))).1.uploadStatus
      = ⟨StatusType.error,
         "Network error: Cannot connect to the server. Check if the API is running at /api"⟩ :=
  (sendToBackend_thrown_reduction { initState with file := some vidA } vidA rfl
      (Or.inl (by decide))).1

/-- C8: for every response with a success HTTP status, `sendToBackend`
yields `Success("<Video|Image> uploaded successfully!")` matching the
file's type — for every body, including an unparseable one
(`r.body = none`). -/
theorem sendToBackend_success_status (s : PageState) (f : JSFile) (r : HttpResponse)
    (hf : s.file = some f) (hok : responseOk r.status = true) :
    (isVideoType f.type = true →
      (sendToBackend s (FetchResult.resp r)).1.uploadStatus
        = ⟨StatusType.success, "Video uploaded successfully!"⟩) ∧
    (isImageType f.type = true →
      (sendToBackend s (FetchResult.resp r)).1.uploadStatus
        = ⟨StatusType.success, "Image uploaded successfully!"⟩) := by
  constructor
  · intro hv
    simp [sendToBackend, hf, hv, hok]
  · intro hi
    have hv := image_not_video hi
    simp [sendToBackend, hf, hv, hi, hok]

/-- Witness for `sendToBackend_success_status`: status 200 with an
unparseable body still succeeds, for both a video and an image file. -/
theorem sendToBackend_success_status_witness :
    (sendToBackend { initState with file := some vidA }
        (FetchResult.resp ⟨200, "OK", none⟩)).1.uploadStatus
      = ⟨StatusType.success, "Video uploaded successfully!"⟩ ∧
    (sendToBackend { initState with file := some imgA }
        (FetchResult.resp ⟨200, "OK", none⟩)).1.uploadStatus
      = ⟨StatusType.success, "Image uploaded successfully!"⟩ :=
  ⟨(sendToBackend_success_status { initState with file := some vidA } vidA
      ⟨200, "OK", none⟩ rfl (by decide)).1 (by decide),
   (sendToBackend_success_status { initState with file := some imgA } imgA
      ⟨200, "OK", none⟩ rfl (by decide)).2 (by decide)⟩

/-- The code's push-based detail construction agrees with the spec-side
present-and-non-empty description. -/
theorem buildDetails_eq_spec (b : ResponseBody) :
    buildDetails b = specErrorDetails b := by
  rcases b with ⟨d, e, m, fi⟩
  rcases d with _ | d <;> rcases e with _ | e <;> rcases m with _ | m <;>
    rcases fi with _ | i <;>
    simp [buildDetails, specErrorDetails, Option.toList] <;>
    split_ifs <;> simp_all

/-- C5 counterexample: a `detail` field that is present but empty is not
appended — the code falls back to the raw status text, so a 422 response
with body `{"detail": ""}` yields `"Server error (422): Unprocessable
Entity"` rather than the status-prefixed append of the present field
(`"Server error (422): "`). -/
theorem server_error_present_empty_counterexample :
    ((some "" : Option String) ≠ none) ∧
    ((sendToBackend { initState with file := some imgA }
        (FetchResult.resp ⟨422, "Unprocessable Entity",
          some ⟨some "", none, none, none⟩⟩)).1.uploadStatus.message
      = "Server error (422): Unprocessable Entity") ∧
    ¬ ((sendToBackend { initState with file := some imgA }
        (FetchResult.resp ⟨422, "Unprocessable Entity",
          some ⟨some "", none, none, none⟩⟩)).1.uploadStatus.message
      = "Server error (422): ") := by
  set_option maxRecDepth 4096 in decide

/-- C5 (amended): for every failing response, `sendToBackend` yields an
error whose message is the `"Server error (<status>): "` head followed by
the fields `detail`, `error`, `message` that are present **and non-empty**
and the rendered frame index, joined in order, falling back to the raw
status text when none of them contributes or the body is unparseable; in
particular a 422 response with body `{"detail": "bad frame"}` yields a
message containing both the status code and `"bad frame"`. -/
theorem sendToBackend_server_error (s : PageState) (f : JSFile) (r : HttpResponse)
    (hf : s.file = some f)
    (hsup : isVideoType f.type = true ∨ isImageType f.type = true)
    (hok : responseOk r.status = false) :
    ((sendToBackend s (FetchResult.resp r)).1.uploadStatus.type = StatusType.error) ∧
    ((sendToBackend s (FetchResult.resp r)).1.uploadStatus.message
        = "Server error (" ++ toString r.status ++ "): " ++
            (match r.body with
             | some b =>
                 if specErrorDetails b = [] then r.statusText
                 else String.intercalate " | " (specErrorDetails b)
             | none => r.statusText)) ∧
    (("422").toList <:+:
      ((sendToBackend { initState with file := some imgA }
          (FetchResult.resp ⟨422, "Unprocessable Entity",
            some ⟨some "bad frame", none, none, none⟩⟩)).1.uploadStatus.message).toList) ∧
    (("bad frame").toList <:+:
      ((sendToBackend { initState with file := some imgA }
          (FetchResult.resp ⟨422, "Unprocessable Entity",
            some ⟨some "bad frame", none, none, none⟩⟩)).1.uploadStatus.message).toList) := by
  have hmsg : (sendToBackend s (FetchResult.resp r)).1.uploadStatus
      = ⟨StatusType.error, serverErrorMessage r.status r.statusText r.body⟩ := by
    rcases hsup with hv | hi
    · simp [sendToBackend, hf, hv, hok, catchMessage]
    · have hv := image_not_video hi
      simp [sendToBackend, hf, hv, hi, hok, catchMessage]
  refine ⟨by rw [hmsg], ?_,
    by set_option maxRecDepth 4096 in decide,
    by set_option maxRecDepth 4096 in decide⟩
  rw [hmsg]
  show serverErrorMessage r.status r.statusText r.body = _
  rcases hb : r.body with _ | b
  · simp [serverErrorMessage, hb]
  · simp only [serverErrorMessage, hb, buildDetails_eq_spec]
    rcases hd : specErrorDetails b with _ | ⟨x, xs⟩ <;> simp [hd]

/-- Witness for `sendToBackend_server_error` at the 422 `"bad frame"`
response. -/
theorem sendToBackend_server_error_witness :
    (sendToBackend { initState with file := some imgA }
        (FetchResult.resp ⟨422, "Unprocessable Entity",
          some ⟨some "bad frame", none, none, none⟩⟩)).1.uploadStatus.type
      = StatusType.error :=
  (sendToBackend_server_error { initState with file := some imgA } imgA
      ⟨422, "Unprocessable Entity", some ⟨some "bad frame", none, none, none⟩⟩
      rfl (Or.inr (by decide)) (by decide)).1

/-! ### Preview lifecycle (object-URL accounting) -/

/-- `dupList` distributes over appending a final element. -/
theorem dupList_append (l : List Nat) (a : Nat) :
    dupList (l ++ [a]) = dupList l ++ [a, a] := by
  induction l with
  | nil => rfl
  | cons x xs ih => simp [dupList, ih]

/-- Counting in a duplicated list doubles the count. -/
theorem count_dupList (l : List Nat) (a : Nat) :
    (dupList l).count a = 2 * l.count a := by
  induction l with
  | nil => rfl
  | cons x xs ih =>
      simp only [dupList, List.count_cons, ih]
      by_cases hxa : (x == a) = true <;> (simp [hxa]; try omega)

/-- Membership in a duplicated list is unchanged. -/
theorem mem_dupList {l : List Nat} {a : Nat} : a ∈ dupList l ↔ a ∈ l := by
  induction l with
  | nil => simp [dupList]
  | cons x xs ih => simp [dupList, ih, or_assoc]

/-- Counting in `List.range`. -/
theorem count_range (n a : Nat) :
    (List.range n).count a = if a < n then 1 else 0 := by
  induction n with
  | zero => simp
  | succ m ih =>
      simp only [List.range_succ, List.count_append, ih, List.count_singleton,
        beq_iff_eq]
      split_ifs <;> omega

/-- A selection on a state with no active preview: no release fires; a
fresh handle is created, bound and captured by the new effect cleanup. -/
theorem selectStep_none (s : PageState) (f : JSFile)
    (hp : s.previewUrl = none) (he : s.effectUrl = none) :
    selectStep s f =
      { s with
          file := some f, uploadStatus := idleStatus,
          previewUrl := some s.nextUrl, effectUrl := some s.nextUrl,
          nextUrl := s.nextUrl + 1, created := s.created ++ [s.nextUrl] } := by
  simp [selectStep, handleFileUpload, createObjectURL, runPreviewEffect, hp, he,
    revokeObjectURL]

/-- A selection on a state with an active preview `u` (captured by the
effect): `u` is released twice — once by the handler, once by the effect
cleanup — and a fresh handle is created, bound and captured. -/
theorem selectStep_some (s : PageState) (f : JSFile) (u : Nat)
    (hp : s.previewUrl = some u) (he : s.effectUrl = some u)
    (hu : ¬ s.nextUrl = u) :
    selectStep s f =
      { s with
          file := some f, uploadStatus := idleStatus,
          previewUrl := some s.nextUrl, effectUrl := some s.nextUrl,
          nextUrl := s.nextUrl + 1, created := s.created ++ [s.nextUrl],
          revoked := s.revoked ++ [u] ++ [u] } := by
  simp [selectStep, handleFileUpload, createObjectURL, runPreviewEffect, hp, he,
    revokeObjectURL, hu]

/-- One selection step preserves the invariant. -/
theorem selectStep_inv {s : PageState} (f : JSFile) (h : PreviewInv s) :
    PreviewInv (selectStep s f) := by
  obtain ⟨hc, hrest⟩ := h
  rcases hrest with ⟨hp, he, hn, hr⟩ | ⟨m, hn, hp, he, hr⟩
  · rw [selectStep_none s f hp he]
    constructor
    · simp [hc, List.range_succ]
    · exact Or.inr ⟨s.nextUrl, rfl, rfl, rfl, by simp [hr, hn, dupList]⟩
  · have hu : ¬ s.nextUrl = m := by omega
    rw [selectStep_some s f m hp he hu]
    constructor
    · simp [hc, List.range_succ]
    · refine Or.inr ⟨s.nextUrl, rfl, rfl, rfl, ?_⟩
      have hrange : List.range s.nextUrl = List.range m ++ [m] := by
        rw [hn]; exact List.range_succ m
      rw [hr, hrange, dupList_append]
      simp

/-- The whole selection sequence preserves the invariant. -/
theorem selectAll_inv (fs : List JSFile) (s : PageState) (h : PreviewInv s) :
    PreviewInv (selectAll s fs) := by
  induction fs generalizing s with
  | nil => exact h
  | cons f fs ih => exact ih _ (selectStep_inv f h)

/-- The effect re-run never mints a handle. -/
theorem runPreviewEffect_nextUrl (s : PageState) :
    (runPreviewEffect s).nextUrl = s.nextUrl := by
  unfold runPreviewEffect
  split
  · rfl
  · cases hE : s.effectUrl <;> simp [hE, revokeObjectURL]

/-- Every selection step mints exactly one handle. -/
theorem selectStep_nextUrl (s : PageState) (f : JSFile) :
    (selectStep s f).nextUrl = s.nextUrl + 1 := by
  rw [selectStep, runPreviewEffect_nextUrl]
  unfold handleFileUpload
  cases hp : s.previewUrl <;> simp [hp, createObjectURL, revokeObjectURL]

/-- `N` selections mint `N` handles. -/
theorem selectAll_nextUrl (fs : List JSFile) (s : PageState) :
    (selectAll s fs).nextUrl = s.nextUrl + fs.length := by
  induction fs generalizing s with
  | nil => simp [selectAll]
  | cons f fs ih =>
      show (selectAll (selectStep s f) fs).nextUrl = s.nextUrl + (f :: fs).length
      rw [ih, selectStep_nextUrl]
      simp
      omega

/-- C1 counterexample: after two selections and teardown the release trace
is `[0, 0, 1]` — the superseded handle `0` has received **two** release
calls (one from `handleFileUpload`, one from the effect cleanup that fires
when `previewUrl` changes), not exactly one. -/
theorem preview_release_count_counterexample :
    (unmount (selectAll initState [imgA, imgB])).revoked = [0, 0, 1] ∧
    ¬ ((unmount (selectAll initState [imgA, imgB])).revoked.count 0 = 1) := by
  set_option maxRecDepth 4096 in decide

/-- C1 (amended): for every nonempty sequence of selections, at most one
preview handle is live (created and not yet released) at every inspection
point; after the `N` selections and teardown, each of the `N−1` superseded
handles has received exactly **two** release calls — one from the upload
handler, one from the effect cleanup — the final handle exactly one (from
teardown), and no handle is left live. -/
theorem preview_lifecycle_amended (f : JSFile) (fs : List JSFile) :
    (∀ gs : List JSFile, gs <+: (f :: fs) →
      ∀ u v : Nat,
        u ∈ (selectAll initState gs).created →
        ¬ u ∈ (selectAll initState gs).revoked →
        v ∈ (selectAll initState gs).created →
        ¬ v ∈ (selectAll initState gs).revoked → u = v) ∧
    (∀ u : Nat, u + 1 < (f :: fs).length →
      (unmount (selectAll initState (f :: fs))).revoked.count u = 2) ∧
    ((unmount (selectAll initState (f :: fs))).revoked.count fs.length = 1) ∧
    (∀ u : Nat, u ∈ (unmount (selectAll initState (f :: fs))).created →
      u ∈ (unmount (selectAll initState (f :: fs))).revoked) := by
  have hinit : PreviewInv initState := ⟨rfl, Or.inl ⟨rfl, rfl, rfl, rfl⟩⟩
  have hlive : ∀ gs : List JSFile, ∀ u v : Nat,
      u ∈ (selectAll initState gs).created →
      ¬ u ∈ (selectAll initState gs).revoked →
      v ∈ (selectAll initState gs).created →
      ¬ v ∈ (selectAll initState gs).revoked → u = v := by
    intro gs u v hu hru hv hrv
    obtain ⟨hc, hrest⟩ := selectAll_inv gs initState hinit
    rcases hrest with ⟨hp, he, hn, hr⟩ | ⟨m, hn, hp, he, hr⟩
    · rw [hc, hn] at hu
      simp at hu
    · rw [hc, hn] at hu hv
      rw [hr] at hru hrv
      rw [List.mem_range] at hu hv
      rw [mem_dupList, List.mem_range] at hru hrv
      omega
  obtain ⟨hc, hrest⟩ := selectAll_inv (f :: fs) initState hinit
  have hn' : (selectAll initState (f :: fs)).nextUrl = fs.length + 1 := by
    rw [selectAll_nextUrl]
    simp [initState]
  rcases hrest with ⟨hp, he, hn, hr⟩ | ⟨m, hn, hp, he, hr⟩
  · rw [hn'] at hn
    exact absurd hn (by omega)
  · have hm : m = fs.length := by
      rw [hn'] at hn
      omega
    subst hm
    have hun : unmount (selectAll initState (f :: fs))
        = revokeObjectURL (selectAll initState (f :: fs)) fs.length := by
      unfold unmount
      rw [he]
    refine ⟨fun gs _ => hlive gs, ?_, ?_, ?_⟩
    · intro u hu
      rw [hun]
      simp only [revokeObjectURL]
      rw [hr, List.count_append, count_dupList, count_range, List.count_singleton]
      simp only [beq_iff_eq]
      have hlen : (f :: fs).length = fs.length + 1 := rfl
      rw [hlen] at hu
      split_ifs <;> omega
    · rw [hun]
      simp only [revokeObjectURL]
      rw [hr, List.count_append, count_dupList, count_range, List.count_singleton]
      simp only [beq_iff_eq]
      split_ifs <;> omega
    · intro u hu
      rw [hun] at hu ⊢
      simp only [revokeObjectURL] at hu ⊢
      rw [hc, hn, List.mem_range] at hu
      rw [hr, List.mem_append, mem_dupList, List.mem_range]
      by_cases hum : u < fs.length
      · exact Or.inl hum
      · right
        simp
        omega

/-- Witness for `preview_lifecycle_amended` at two concrete image
selections: handle `0` is released twice, handle `1` once, and the
at-most-one-live conclusion applies at the prefix `[imgA]`. -/
theorem preview_lifecycle_amended_witness :
    (unmount (selectAll initState [imgA, imgB])).revoked.count 0 = 2 ∧
    (unmount (selectAll initState [imgA, imgB])).revoked.count 1 = 1 ∧
    (0 : Nat) = 0 :=
  ⟨(preview_lifecycle_amended imgA [imgB]).2.1 0 (by decide),
   (preview_lifecycle_amended imgA [imgB]).2.2.1,
   (preview_lifecycle_amended imgA [imgB]).1 [imgA] ⟨[imgB], rfl⟩ 0 0
     (by set_option maxRecDepth 4096 in decide)
     (by set_option maxRecDepth 4096 in decide)
     (by set_option maxRecDepth 4096 in decide)
     (by set_option maxRecDepth 4096 in decide)⟩
